import Mathlib

/-!
Shallow embedding of the asynchronous CV-screening pipeline of `app.py`
(repository Johnsonndungu/AI-HR).

The embedded core consists of:
* the in-memory job record store `progress_store` (here `Store`),
* text extraction (`extract_text`, `extract_text_from_pdf`,
  `extract_text_from_docx`),
* the prompt builder (`build_evaluation_prompt`),
* the Ollama model client (`ollama_json_request`),
* the per-job background worker (`screen_cv_job`, embedded as the ordered
  trace of store states `screen_cv_job_trace` it writes), and
* the submission route (`screen_candidates`).

External effects (the file system, the `pdfplumber` / `python-docx`
libraries, the HTTP call to the model endpoint, `uuid4`, and injected
asynchronous exceptions) are modelled as explicit environment parameters,
so every definition is an executable function of its inputs.
-/

namespace AIHR

/-- JSON values as produced by Python `json.loads`, restricted to integer
numerals (the only numerals relevant to this program; a payload using a
float, which the program would accept, is rejected by this model's parser,
an inessential narrowing for the claims treated here). -/
inductive Json where
  | null
  | bool (b : Bool)
  | num (n : Int)
  | str (s : String)
  | arr (xs : List Json)
  | obj (fields : List (String × Json))

/-- Python truthiness of a parsed JSON value, as tested by `if not result:`
in `screen_cv_job` (line 167): `None`, `False`, `0`, `""`, `[]` and
`{}` are falsy. -/
def Json.truthy : Json → Bool
  | .null => false
  | .bool b => b
  | .num n => n != 0
  | .str s => s != ""
  | .arr xs => !xs.isEmpty
  | .obj fields => !fields.isEmpty

/-- Dictionary field lookup, as in Python `result["score"]` / `dict.get`. -/
def lookupField : List (String × Json) → String → Option Json
  | [], _ => none
  | (k2, v) :: rest, k => if k2 == k then some v else lookupField rest k

/-- Field access on a JSON value; `none` when the value is not an object or
the field is absent. -/
def Json.getField (j : Json) (k : String) : Option Json :=
  match j with
  | .obj fields => lookupField fields k
  | _ => none

/-- The property the spec asserts of `result.score`: present, an integer,
and in the range 0 to 100 inclusive. -/
def scoreInRange (j : Json) : Prop :=
  ∃ n : Int, j.getField "score" = some (.num n) ∧ 0 ≤ n ∧ n ≤ 100

/-- Whitespace characters stripped by Python `str.strip()`. -/
def isPySpace (c : Char) : Bool :=
  c == ' ' || c == '\t' || c == '\n' || c == '\r' || c == '\x0c' || c == '\x0b'

/-- Model of Python `str.strip()` (line 147 of `app.py`). -/
def pyStrip (s : String) : String :=
  String.mk (((s.data.dropWhile isPySpace).reverse.dropWhile isPySpace).reverse)

/-- Model of Python `s[:n]` slicing: the first `n` characters. -/
def pySlice (s : String) (n : Nat) : String :=
  String.mk (s.data.take n)

/-- Boolean list-prefix test (helper for `strEndsWith`). -/
def listIsPre : List Char → List Char → Bool
  | [], _ => true
  | _ :: _, [] => false
  | a :: as, b :: bs => a == b && listIsPre as bs

/-- Model of Python `str.endswith` (lines 103 and 105 of `app.py`). -/
def strEndsWith (s suf : String) : Bool :=
  listIsPre suf.data.reverse s.data.reverse

/-- Model of Python `sep.join(xs)` (line 97 of `app.py`). -/
def pyJoin (sep : String) : List String → String
  | [] => ""
  | [x] => x
  | x :: xs => x ++ sep ++ pyJoin sep xs

/-- JSON whitespace, skipped between tokens by `json.loads`. -/
def isJsonWs (c : Char) : Bool :=
  c == ' ' || c == '\t' || c == '\n' || c == '\r'

/-- Skip leading JSON whitespace. -/
def skipWs : List Char → List Char
  | [] => []
  | c :: cs => if isJsonWs c then skipWs cs else c :: cs

/-- JSON string escape characters recognised by the model parser. -/
def escChar (c : Char) : Option Char :=
  match c with
  | '"' => some '"'
  | '\\' => some '\\'
  | '/' => some '/'
  | 'n' => some '\n'
  | 't' => some '\t'
  | 'r' => some '\r'
  | 'b' => some '\x08'
  | 'f' => some '\x0c'
  | _ => none

/-- Parse the body of a JSON string literal, after the opening quote. -/
def parseStringBody : List Char → Option (String × List Char)
  | [] => none
  | '"' :: rest => some ("", rest)
  | '\\' :: c :: rest =>
    match escChar c with
    | some e =>
      match parseStringBody rest with
      | some (s, r) => some (String.mk (e :: s.data), r)
      | none => none
    | none => none
  | c :: rest =>
    match parseStringBody rest with
    | some (s, r) => some (String.mk (c :: s.data), r)
    | none => none

/-- Numeric value of a digit list. -/
def digitsVal (ds : List Char) : Nat :=
  ds.foldl (fun a c => a * 10 + (c.toNat - 48)) 0

/-- Parse a JSON integer numeral (floats are rejected by this model). -/
def parseNumber (cs : List Char) : Option (Json × List Char) :=
  match cs with
  | '-' :: rest =>
    match rest.span Char.isDigit with
    | (ds, r) =>
      if ds.isEmpty then none
      else
        match r with
        | '.' :: _ => none
        | 'e' :: _ => none
        | 'E' :: _ => none
        | _ => some (.num (-(digitsVal ds : Int)), r)
  | _ =>
    match cs.span Char.isDigit with
    | (ds, r) =>
      if ds.isEmpty then none
      else
        match r with
        | '.' :: _ => none
        | 'e' :: _ => none
        | 'E' :: _ => none
        | _ => some (.num ((digitsVal ds : Int)), r)

/-- Stack frames of the JSON parsing machine: an array or object being
assembled, with the fields accumulated so far. -/
inductive Frame where
  | arrFrame (acc : List Json)
  | objFrame (acc : List (String × Json)) (key : String)

/-- Mode of the JSON parsing machine: expecting a value, or holding a
completed value to be folded into the enclosing frame. -/
inductive PMode where
  | value
  | reduce (v : Json)

/-- Fuel-indexed JSON parsing machine (an executable model of `json.loads`).
Each step consumes one unit of fuel; `json_loads` supplies enough fuel for
any input. -/
def parseRun : Nat → PMode → List Char → List Frame → Option (Json × List Char)
  | 0, _, _, _ => none
  | fuel + 1, .value, cs, stack =>
    match skipWs cs with
    | 'n' :: 'u' :: 'l' :: 'l' :: rest => parseRun fuel (.reduce .null) rest stack
    | 't' :: 'r' :: 'u' :: 'e' :: rest => parseRun fuel (.reduce (.bool true)) rest stack
    | 'f' :: 'a' :: 'l' :: 's' :: 'e' :: rest =>
      parseRun fuel (.reduce (.bool false)) rest stack
    | '"' :: rest =>
      match parseStringBody rest with
      | some (s, r) => parseRun fuel (.reduce (.str s)) r stack
      | none => none
    | '[' :: rest =>
      (match skipWs rest with
       | ']' :: r => parseRun fuel (.reduce (.arr [])) r stack
       | _ => parseRun fuel .value rest (Frame.arrFrame [] :: stack))
    | '\x7b' :: rest =>
      (match skipWs rest with
       | '\x7d' :: r => parseRun fuel (.reduce (.obj [])) r stack
       | '"' :: r2 =>
         (match parseStringBody r2 with
          | some (k, r3) =>
            (match skipWs r3 with
             | ':' :: r4 => parseRun fuel .value r4 (Frame.objFrame [] k :: stack)
             | _ => none)
          | none => none)
       | _ => none)
    | c :: rest =>
      if c.isDigit || c == '-' then
        match parseNumber (c :: rest) with
        | some (v, r) => parseRun fuel (.reduce v) r stack
        | none => none
      else none
    | [] => none
  | fuel + 1, .reduce v, cs, stack =>
    match stack with
    | [] => some (v, cs)
    | Frame.arrFrame acc :: stack2 =>
      (match skipWs cs with
       | ',' :: rest => parseRun fuel .value rest (Frame.arrFrame (acc ++ [v]) :: stack2)
       | ']' :: rest => parseRun fuel (.reduce (.arr (acc ++ [v]))) rest stack2
       | _ => none)
    | Frame.objFrame acc k :: stack2 =>
      (match skipWs cs with
       | ',' :: rest =>
         (match skipWs rest with
          | '"' :: r2 =>
            (match parseStringBody r2 with
             | some (k2, r3) =>
               (match skipWs r3 with
                | ':' :: r4 =>
                  parseRun fuel .value r4 (Frame.objFrame (acc ++ [(k, v)]) k2 :: stack2)
                | _ => none)
             | none => none)
          | _ => none)
       | '\x7d' :: rest => parseRun fuel (.reduce (.obj (acc ++ [(k, v)]))) rest stack2
       | _ => none)

/-- Model of Python `json.loads`: parse a complete JSON document, rejecting
trailing garbage. Returns `none` where `json.loads` raises. -/
def json_loads (s : String) : Option Json :=
  match parseRun (2 * s.data.length + 4) PMode.value s.data [] with
  | some (j, rest) => if skipWs rest = [] then some j else none
  | none => none

/-- One job's mutable record in `progress_store`:
`job_id: {"progress": 0-100, "message": "", "result": {...}}` (line 66). -/
structure JobRecord where
  progress : Nat
  message : String
  result : Option Json

/-- The in-memory `progress_store` dictionary, keyed by job id. -/
def Store := List (String × JobRecord)

/-- Dictionary read, as in `progress_store.get(job_id)` (line 254);
`none` is the NotFound outcome surfaced as a 404. -/
def Store.get? (s : Store) (k : String) : Option JobRecord :=
  match s with
  | [] => none
  | (k2, r) :: rest => if k2 == k then some r else Store.get? rest k

/-- Dictionary write, as in `progress_store[job_id] = ...`. -/
def Store.set (s : Store) (k : String) (r : JobRecord) : Store :=
  match s with
  | [] => [(k, r)]
  | (k2, r2) :: rest => if k2 == k then (k, r) :: rest else (k2, r2) :: Store.set rest k r

/-- Outcome of one call to `pdfplumber` for a given path: the per-page
`page.extract_text()` results (`none` models a page yielding Python
`None`), or an exception raised by the library. -/
inductive PdfOutcome where
  | pages (texts : List (Option String))
  | raise (msg : String)

/-- Outcome of one call to `python-docx` for a given path: the paragraph
texts, or an exception raised by the library. -/
inductive DocxOutcome where
  | paragraphs (ps : List String)
  | raise (msg : String)

/-- Environment for file access: the behaviour of the two extraction
libraries on each path, plus `raw`, the text content stored at the path.
The code reads file content only through the two libraries; `raw` records
what a plain-text read would have returned and is never consulted by the
embedded functions. -/
structure FileEnv where
  pdf : String → PdfOutcome
  docx : String → DocxOutcome
  raw : String → String

/-- `extract_text_from_pdf` (lines 83 to 92): concatenate
`page.extract_text() or ""` over the pages and strip; any exception is
caught and degrades to the empty string. -/
def extract_text_from_pdf (fs : FileEnv) (path : String) : String :=
  match fs.pdf path with
  | .pages ts => pyStrip (String.mk ((ts.map (fun t => t.getD "")).foldl (fun a s => a ++ s.data) []))
  | .raise _ => ""

/-- `extract_text_from_docx` (lines 94 to 100): join the paragraph texts
with newlines and strip; any exception is caught and degrades to the empty
string. -/
def extract_text_from_docx (fs : FileEnv) (path : String) : String :=
  match fs.docx path with
  | .paragraphs ps => pyStrip (pyJoin "\n" ps)
  | .raise _ => ""

/-- `extract_text` (lines 102 to 107): dispatch on the path suffix;
anything that is neither `.pdf` nor `.docx` yields the empty string
without the stored content ever being read. -/
def extract_text (fs : FileEnv) (path : String) : String :=
  if strEndsWith path ".pdf" then extract_text_from_pdf fs path
  else if strEndsWith path ".docx" then extract_text_from_docx fs path
  else ""

/-- Fixed prompt text preceding the job description (lines 113 to 123). -/
def promptHead : String :=
  "\nYou are a senior HR professional with over 20 years of experience.\n\nTASK:\nEvaluate how well the candidate fits the job.\n\nSTRICT RULES:\n- Respond ONLY with valid JSON\n- No markdown\n\nJOB DESCRIPTION:\n"

/-- Fixed prompt text between the job description and the CV (lines 125
to 126). -/
def promptMid : String := "\n\nCANDIDATE CV:\n"

/-- Fixed prompt text following the CV: the demanded output schema
(lines 128 to 137; the doubled braces of the Python f-string denote
literal braces). -/
def promptTail : String :=
  "\n\nOUTPUT FORMAT:\n\x7b\n  \"applicant_name\": \"<Full Name>\",\n  \"contact\": \"<Email or Phone>\",\n  \"score\": <integer 0-100>,\n  \"explanation\": \"<short explanation>\",\n  \"matched_skills\": [\"skill1\", \"skill2\"]\n\x7d\n"

/-- `build_evaluation_prompt` (lines 112 to 137): the f-string template,
with `job_text[:1200]` and `cv_text[:1200]` spliced in. -/
def build_evaluation_prompt (job_text cv_text : String) : String :=
  promptHead ++ pySlice job_text 1200 ++ promptMid ++ pySlice cv_text 1200 ++ promptTail

/-- Outcome of the HTTP exchange inside `ollama_json_request`, as supplied
by the external endpoint and the network:
* `timeout`: `requests.post` raised a timeout;
* `netError`: `requests.post` raised any other exception;
* `httpErrorStatus`: `raise_for_status()` raised on a non-success status;
* `bodyNotJson`: `response.json()` raised (transport body not JSON);
* `body raw`: the exchange succeeded and the `"response"` field of the
  body was the string `raw` (an absent field is `body ""`, matching
  `.get("response", "")`). -/
inductive OllamaOutcome where
  | timeout
  | netError (msg : String)
  | httpErrorStatus (code : Nat)
  | bodyNotJson
  | body (raw : String)

/-- The try-block body of `ollama_json_request` (lines 144 to 148):
each failure mode raises (modelled as `Except.error`); on success the
stripped `"response"` string is fed to `json.loads`, which itself raises
on a malformed payload. -/
def ollama_request_body (outcome : OllamaOutcome) (prompt : String) (timeout : Nat) :
    Except String Json :=
  match outcome with
  | .timeout => .error "requests timeout"
  | .netError msg => .error msg
  | .httpErrorStatus code => .error ("HTTP error " ++ toString code)
  | .bodyNotJson => .error "response body is not JSON"
  | .body raw =>
    match json_loads (pyStrip raw) with
    | some j => .ok j
    | none => .error "json.loads failed"

/-- `ollama_json_request` (lines 142 to 151): the catch-all `except`
converts every exception of the body into a logged `None`; note that a
payload `"null"` parses to JSON null, which Python also returns as `None`
(here `some Json.null`, which downstream truthiness treats identically). -/
def ollama_json_request (outcome : OllamaOutcome) (prompt : String) (timeout : Nat) :
    Option Json :=
  match ollama_request_body outcome prompt timeout with
  | .ok j => some j
  | .error _ => none

/-- The fallback result substituted when the model call yields a falsy
value (lines 168 to 174). -/
def fallback_result (filename : String) : Json :=
  Json.obj [("applicant_name", Json.str filename), ("contact", Json.str "N/A"),
    ("score", Json.num 0), ("explanation", Json.str "LLM failed"),
    ("matched_skills", Json.arr [])]

/-- The result written by the worker's exception handler (lines 183 to
189), with `explanation = str(e)`. -/
def error_result (filename msg : String) : Json :=
  Json.obj [("applicant_name", Json.str filename), ("contact", Json.str "N/A"),
    ("score", Json.num 0), ("explanation", Json.str msg),
    ("matched_skills", Json.arr [])]

/-- The value stored as the job's result on the success path of
`screen_cv_job` (lines 159, 164, 165 and 167 to 174): extract the CV
text, build the prompt, call the model, and replace a falsy outcome by
`fallback_result`. -/
def final_result (fs : FileEnv) (oll : OllamaOutcome)
    (job_text cv_path filename : String) : Json :=
  let cv_text := extract_text fs cv_path
  let prompt := build_evaluation_prompt job_text cv_text
  let result0 := ollama_json_request oll prompt 120
  match result0 with
  | some j => if j.truthy then j else fallback_result filename
  | none => fallback_result filename

/-- The try-block of `screen_cv_job` (lines 157 to 178) as the ordered
list of states its store writes produce for this job, paired with the
message of an uncaught exception when one is injected.

`fault = some (k, msg)` injects an unexpected Python exception (of a kind
not already swallowed by `extract_text` or `ollama_json_request`) just
before the k-th operation after the initial record creation, for k from 1
to 9; any other `k` means the body runs to completion, as does
`fault = none`. The initial record creation (line 158, a plain dict
assignment) is taken to be fault-free. Operations, in source order:
1 `extract_text` call (159), 2 progress write 30 (161), 3 message write
(162), 4 prompt build (164), 5 model call (165), 6 falsy check (167),
7 progress write 100 (176), 8 message write (177), 9 result write (178).
Each successive record is the previous one with the single mutated field
changed, exactly as the dict is mutated in place. -/
def screen_cv_job_body (fault : Option (Nat × String)) (fs : FileEnv)
    (oll : OllamaOutcome) (job_text cv_path filename : String) :
    List JobRecord × Option String :=
  let result := final_result fs oll job_text cv_path filename
  let r0 : JobRecord := ⟨5, "Reading CV", none⟩
  let r1 : JobRecord := ⟨30, "Reading CV", none⟩
  let r2 : JobRecord := ⟨30, "Analyzing with AI", none⟩
  let r3 : JobRecord := ⟨100, "Analyzing with AI", none⟩
  let r4 : JobRecord := ⟨100, "Completed", none⟩
  let r5 : JobRecord := ⟨100, "Completed", some result⟩
  match fault with
  | none => ([r0, r1, r2, r3, r4, r5], none)
  | some (k, msg) =>
    if k = 1 ∨ k = 2 then ([r0], some msg)
    else if k = 3 then ([r0, r1], some msg)
    else if 4 ≤ k ∧ k ≤ 7 then ([r0, r1, r2], some msg)
    else if k = 8 then ([r0, r1, r2, r3], some msg)
    else if k = 9 then ([r0, r1, r2, r3, r4], some msg)
    else ([r0, r1, r2, r3, r4, r5], none)

/-- The three store writes of the worker's exception handler (lines 181 to
189), applied to the record state `r` current when the exception fired:
progress to 100, then message to `"Error"`, then the zero-score
`error_result`. -/
def error_writes (r : JobRecord) (filename msg : String) : List JobRecord :=
  [⟨100, r.message, r.result⟩,
   ⟨100, "Error", r.result⟩,
   ⟨100, "Error", some (error_result filename msg)⟩]

/-- `screen_cv_job` (lines 156 to 189) as the full ordered trace of record
states written for its job: the try-body's writes, followed, when the body
raised, by the handler's writes. The worker is the only writer for its
job id, and writes happen in this sequence, each visible before the next
(CPython dict operations are atomic and the worker is single-threaded),
so a polling reader observes a prefix of this trace's last element
history. -/
def screen_cv_job_trace (fault : Option (Nat × String)) (fs : FileEnv)
    (oll : OllamaOutcome) (job_text cv_path filename : String) : List JobRecord :=
  match screen_cv_job_body fault fs oll job_text cv_path filename with
  | (tr, none) => tr
  | (tr, some msg) => tr ++ error_writes (tr.getLastD ⟨0, "", none⟩) filename msg

/-- The store after `screen_cv_job` has run to completion for its job id. -/
def screen_cv_job (fault : Option (Nat × String)) (fs : FileEnv)
    (oll : OllamaOutcome) (job_id job_text cv_path filename : String)
    (store : Store) : Store :=
  Store.set store job_id
    ((screen_cv_job_trace fault fs oll job_text cv_path filename).getLastD ⟨0, "", none⟩)

/-- Model of `werkzeug.utils.secure_filename`; its sanitisation is
irrelevant to the claims treated here, so it is the identity. -/
def secure_filename (s : String) : String := s

/-- One uploaded file, as received by the `/screen` route. -/
structure CvUpload where
  filename : String

/-- Model of the two `uuid.uuid4()` draws per document in
`screen_candidates` (lines 239 and 241): the identifiers the environment
hands out for the i-th document's saved path and job id. -/
structure IdGen where
  pathId : Nat → String
  jobId : Nat → String

/-- The arguments of one `threading.Thread(target=screen_cv_job, ...)`
scheduled by `screen_candidates` (line 245); the thread is started but its
processing has not run when submission returns. -/
structure PendingJob where
  job_id : String
  job_text : String
  cv_path : String
  filename : String

/-- What the `/screen` route returns and leaves behind: the job ids of the
response, the scheduled workers, the store as submission left it, and the
incremented usage counter (line 248). -/
structure SubmitResult where
  job_ids : List String
  pending : List PendingJob
  store : Store
  usage_count : Nat

/-- The per-CV loop of `screen_candidates` (lines 238 to 246): for the
i-th upload, save it under `uploads/<uuid>_<secure_filename>`, draw a job
id, and schedule one worker carrying the job text, the saved path and the
original filename. -/
def make_pending (jt : String) (gen : IdGen) : Nat → List CvUpload → List PendingJob
  | _, [] => []
  | i, cv :: rest =>
    ⟨gen.jobId i, jt, "uploads/" ++ gen.pathId i ++ "_" ++ secure_filename cv.filename,
      cv.filename⟩ :: make_pending jt gen (i + 1) rest

/-- `screen_candidates` (lines 221 to 249): reject when the usage limit is
reached; otherwise derive the job text (from the uploaded job file when
present), build and schedule one worker per CV, and return the job ids.
No worker has run when this returns: the store is passed through
untouched, and the result does not depend on any model or extraction
outcome of the scheduled workers. -/
def screen_candidates (usage_count limit : Nat) (job_text : String)
    (job_file : Option CvUpload) (fs : FileEnv) (cvs : List CvUpload)
    (gen : IdGen) (store : Store) : Except String SubmitResult :=
  if limit ≤ usage_count then Except.error "Usage limit reached"
  else
    let jt :=
      match job_file with
      | some f => extract_text fs ("uploads/" ++ secure_filename f.filename)
      | none => job_text
    let pending := make_pending jt gen 0 cvs
    Except.ok ⟨pending.map PendingJob.job_id, pending, store, usage_count + 1⟩

/-- `job_progress` (lines 251 to 257): read-only store lookup; `none` is
the 404 NotFound reply. -/
def job_progress (store : Store) (job_id : String) : Option JobRecord :=
  Store.get? store job_id

/-- Checkpoint index of the worker's status messages, for stating that the
step sequence is ordered: reading, then analyzing, then terminal. -/
def message_stage (m : String) : Nat :=
  if m = "Reading CV" then 0
  else if m = "Analyzing with AI" then 1
  else 2

/-- A file environment on which both extraction libraries succeed with no
content. -/
def fsA : FileEnv :=
  ⟨fun _ => PdfOutcome.pages [], fun _ => DocxOutcome.paragraphs [], fun _ => ""⟩

/-- A file environment holding a plain-text CV with non-trivial content. -/
def fsTxt : FileEnv :=
  ⟨fun _ => PdfOutcome.pages [], fun _ => DocxOutcome.paragraphs [],
    fun _ => "hello plain text resume"⟩

/-- A file environment on which both extraction libraries raise. -/
def fsRaise : FileEnv :=
  ⟨fun _ => PdfOutcome.raise "corrupt file", fun _ => DocxOutcome.raise "corrupt file",
    fun _ => ""⟩

/-- A fixed identifier supply. -/
def genA : IdGen := ⟨fun _ => "p0", fun _ => "j0"⟩

/-- The fallback result always carries the in-range score 0. -/
theorem scoreInRange_fallback (fn : String) : scoreInRange (fallback_result fn) := by
  unfold scoreInRange
  exact ⟨0, rfl, by decide, by decide⟩

/-- The handler's error result always carries the in-range score 0. -/
theorem scoreInRange_error (fn msg : String) : scoreInRange (error_result fn msg) := by
  unfold scoreInRange
  exact ⟨0, rfl, by decide, by decide⟩

/-- The submission loop schedules exactly one worker per uploaded CV. -/
theorem make_pending_length (jt : String) (gen : IdGen) :
    ∀ (i : Nat) (cvs : List CvUpload), (make_pending jt gen i cvs).length = cvs.length := by
  intro i cvs
  induction cvs generalizing i with
  | nil => rfl
  | cons cv rest ih => simp [make_pending, ih]

/-- The worker's first store write is always the creation record
`progress 5, "Reading CV", no result`, whatever the environment and
whatever fault is injected afterwards. -/
theorem screen_cv_job_trace_head (fault : Option (Nat × String)) (fs : FileEnv)
    (oll : OllamaOutcome) (jt cp fn : String) :
    (screen_cv_job_trace fault fs oll jt cp fn).head? = some ⟨5, "Reading CV", none⟩ := by
  rcases fault with _ | ⟨k, msg⟩
  · rfl
  · unfold screen_cv_job_trace screen_cv_job_body
    simp only
    split_ifs <;> rfl

/-- An injected fault index outside 1..9 leaves the body fault-free. -/
theorem trace_fault_other (k : Nat) (msg : String) (fs : FileEnv) (oll : OllamaOutcome)
    (jt cp fn : String) (h : k = 0 ∨ 10 ≤ k) :
    screen_cv_job_trace (some (k, msg)) fs oll jt cp fn
      = screen_cv_job_trace none fs oll jt cp fn := by
  unfold screen_cv_job_trace screen_cv_job_body
  simp only
  rw [if_neg (by omega), if_neg (by omega), if_neg (by omega), if_neg (by omega),
    if_neg (by omega)]

/-- The last record of any worker trace: either the success write with the
normalised `final_result`, or the handler's terminal error write. -/
theorem trace_getLast_cases (fault : Option (Nat × String)) (fs : FileEnv)
    (oll : OllamaOutcome) (jt cp fn : String) :
    (screen_cv_job_trace fault fs oll jt cp fn).getLast?
        = some ⟨100, "Completed", some (final_result fs oll jt cp fn)⟩
    ∨ ∃ msg, (screen_cv_job_trace fault fs oll jt cp fn).getLast?
        = some ⟨100, "Error", some (error_result fn msg)⟩ := by
  rcases fault with _ | ⟨k, msg⟩
  · exact Or.inl rfl
  · by_cases hk : (1 ≤ k ∧ k ≤ 9)
    · obtain ⟨h1, h2⟩ := hk
      interval_cases k <;> exact Or.inr ⟨msg, rfl⟩
    · rw [trace_fault_other k msg fs oll jt cp fn (by omega)]
      exact Or.inl rfl

/-- Normalisation of the success-path result: it is the fallback, or the
truthy JSON value the model client returned. -/
theorem final_result_cases (fs : FileEnv) (oll : OllamaOutcome) (jt cp fn : String) :
    final_result fs oll jt cp fn = fallback_result fn
    ∨ ((final_result fs oll jt cp fn).truthy = true
        ∧ ollama_json_request oll (build_evaluation_prompt jt (extract_text fs cp)) 120
            = some (final_result fs oll jt cp fn)) := by
  unfold final_result
  rcases h : ollama_json_request oll (build_evaluation_prompt jt (extract_text fs cp)) 120
    with _ | j
  · simp [h]
  · by_cases ht : j.truthy
    · right
      simp [h, ht]
    · left
      simp [h, ht]

/-- Claim C1 (counterexample): with the model responding `[5]` (a truthy
JSON array), the job terminates at progress 100 with that array stored
unvalidated as its result, so `result.score` is not an integer in [0,100];
moreover the trace's fourth store state already has progress 100 with a
still-null result, observable to a polling reader between the progress
write (line 176) and the result write (line 178). -/
theorem C1_counterexample_unvalidated_result :
    (screen_cv_job_trace none fsA (OllamaOutcome.body "[5]") "job" "cv.pdf" "cv.pdf").getLast?
      = some ⟨100, "Completed", some (Json.arr [Json.num 5])⟩
    ∧ ¬ scoreInRange (Json.arr [Json.num 5])
    ∧ (screen_cv_job_trace none fsA (OllamaOutcome.body "[5]") "job" "cv.pdf" "cv.pdf")[3]?
      = some ⟨100, "Analyzing with AI", none⟩ := by
  refine ⟨rfl, ?_, rfl⟩
  rintro ⟨n, hn, -, -⟩
  simp [Json.getField] at hn

/-- Claim C1 (amended): every run ends at progress 100 with a non-null
result; the score of that result is 0 (in range) on every failure or
fallback path, but when the model returns a truthy JSON payload that
payload is stored as-is without validation, so the score range is not
guaranteed on the success path. -/
theorem C1_terminal_result_present :
    ∀ (fault : Option (Nat × String)) (fs : FileEnv) (oll : OllamaOutcome)
      (jt cp fn : String),
      ∃ r : JobRecord,
        (screen_cv_job_trace fault fs oll jt cp fn).getLast? = some r
        ∧ r.progress = 100
        ∧ ∃ j : Json, r.result = some j
          ∧ (scoreInRange j ∨ (j.truthy = true ∧
              ollama_json_request oll (build_evaluation_prompt jt (extract_text fs cp)) 120
                = some j)) := by
  intro fault fs oll jt cp fn
  rcases trace_getLast_cases fault fs oll jt cp fn with h | ⟨msg, h⟩
  · rcases final_result_cases fs oll jt cp fn with hf | ⟨ht, ho⟩
    · rw [hf] at h
      exact ⟨_, h, rfl, _, rfl, Or.inl (scoreInRange_fallback fn)⟩
    · exact ⟨_, h, rfl, _, rfl, Or.inr ⟨ht, ho⟩⟩
  · exact ⟨_, h, rfl, _, rfl, Or.inl (scoreInRange_error fn msg)⟩

/-- Claim C2 (counterexample): submitting one document creates no job
record at submission time: the store returned by `screen_candidates` is
the unchanged input store, so polling the returned id `j0` before the
worker's first write yields NotFound (`none`), and in particular no
record `progress 0, "queued"` ever exists. -/
theorem C2_counterexample_not_found_after_submit :
    screen_candidates 0 3 "job" none fsA [⟨"cv1.pdf"⟩] genA []
      = Except.ok ⟨["j0"], [⟨"j0", "job", "uploads/p0_cv1.pdf", "cv1.pdf"⟩], [], 1⟩
    ∧ Store.get? [] "j0" = none := ⟨rfl, rfl⟩

/-- Claim C2 (amended): submission leaves the store untouched (no record
is created before the worker is launched); the record is first created by
the worker itself, whose first store write is
`progress 5, message "Reading CV", result null`; consequently a poll of a
returned job id issued before the worker's first write yields NotFound. -/
theorem C2_record_created_by_worker :
    ∀ (usage limit : Nat) (jt : String) (jf : Option CvUpload) (fs : FileEnv)
      (cvs : List CvUpload) (gen : IdGen) (store : Store), usage < limit →
      (∃ r : SubmitResult,
          screen_candidates usage limit jt jf fs cvs gen store = Except.ok r
          ∧ r.store = store)
      ∧ ∀ (fault : Option (Nat × String)) (fs2 : FileEnv) (oll : OllamaOutcome)
          (jt2 cp fn : String),
          (screen_cv_job_trace fault fs2 oll jt2 cp fn).head?
            = some ⟨5, "Reading CV", none⟩ := by
  intro usage limit jt jf fs cvs gen store h
  constructor
  · unfold screen_candidates
    rw [if_neg (by omega)]
    exact ⟨_, rfl, rfl⟩
  · intro fault fs2 oll jt2 cp fn
    exact screen_cv_job_trace_head fault fs2 oll jt2 cp fn

/-- Claim C2 (witness): concrete submission of one document with the
store unchanged, and the worker's creation write. -/
theorem C2_record_created_by_worker_witness :
    (∃ r : SubmitResult,
        screen_candidates 0 3 "job" none fsA [⟨"cv1.pdf"⟩] genA [] = Except.ok r
        ∧ r.store = [])
    ∧ (screen_cv_job_trace none fsA (OllamaOutcome.netError "down") "job"
        "uploads/p0_cv1.pdf" "cv1.pdf").head? = some ⟨5, "Reading CV", none⟩ :=
  ⟨(C2_record_created_by_worker 0 3 "job" none fsA [⟨"cv1.pdf"⟩] genA [] (by decide)).1,
   (C2_record_created_by_worker 0 3 "job" none fsA [⟨"cv1.pdf"⟩] genA [] (by decide)).2
     none fsA (OllamaOutcome.netError "down") "job" "uploads/p0_cv1.pdf" "cv1.pdf"⟩

/-- Claim C3 (counterexample): with the model responding
`{"score": 150}`, the terminal result stores score 150 as-is: nothing
clamps it to 100 and it is out of the spec's range. -/
theorem C3_counterexample_score_not_clamped :
    (screen_cv_job_trace none fsA (OllamaOutcome.body "\x7b\"score\": 150\x7d")
        "jobtext" "cand.pdf" "cand.pdf").getLast?
      = some ⟨100, "Completed", some (Json.obj [("score", Json.num 150)])⟩
    ∧ (Json.obj [("score", Json.num 150)]).getField "score" = some (Json.num 150)
    ∧ ¬ ((150 : Int) ≤ 100)
    ∧ ¬ scoreInRange (Json.obj [("score", Json.num 150)]) := by
  refine ⟨rfl, rfl, by decide, ?_⟩
  rintro ⟨n, hn, -, h2⟩
  simp [Json.getField, lookupField] at hn
  omega

/-- Claim C3 (amended): a payload of `"not json"` indeed yields the
fallback result with score 0 and the non-empty explanation "LLM failed";
but a payload of `{"score": 150}` is stored with score 150 unchanged —
no clamping or default substitution exists. -/
theorem C3_parse_fallback_and_unclamped :
    ∀ (fs : FileEnv) (jt cp fn : String),
      (screen_cv_job_trace none fs (OllamaOutcome.body "not json") jt cp fn).getLast?
        = some ⟨100, "Completed", some (fallback_result fn)⟩
      ∧ (fallback_result fn).getField "score" = some (Json.num 0)
      ∧ (fallback_result fn).getField "explanation" = some (Json.str "LLM failed")
      ∧ "LLM failed" ≠ ""
      ∧ (screen_cv_job_trace none fs (OllamaOutcome.body "\x7b\"score\": 150\x7d")
            jt cp fn).getLast?
        = some ⟨100, "Completed", some (Json.obj [("score", Json.num 150)])⟩ := by
  intro fs jt cp fn
  exact ⟨rfl, rfl, rfl, by decide, rfl⟩

/-- Claim C4: an unexpected exception injected at any of the nine points
of the per-job body (after the initial record creation) makes the body
raise, and the outermost handler then forces the job to the terminal
state: progress 100, message "Error" (the spec's `error` checkpoint),
and a result with score 0 whose explanation is the fault's description.
The trace function is total, so the fault never escapes the unit of
work. -/
theorem C4_unexpected_fault_terminal_error :
    ∀ (k : Nat) (msg : String) (fs : FileEnv) (oll : OllamaOutcome) (jt cp fn : String),
      1 ≤ k → k ≤ 9 →
      (screen_cv_job_body (some (k, msg)) fs oll jt cp fn).2 = some msg
      ∧ (screen_cv_job_trace (some (k, msg)) fs oll jt cp fn).getLast?
        = some ⟨100, "Error", some (error_result fn msg)⟩ := by
  intro k msg fs oll jt cp fn h1 h2
  interval_cases k <;> exact ⟨rfl, rfl⟩

/-- Claim C4 (witness): a fault injected just before the model call. -/
theorem C4_unexpected_fault_terminal_error_witness :
    (screen_cv_job_body (some (5, "boom")) fsA (OllamaOutcome.netError "x")
        "j" "c.pdf" "c.pdf").2 = some "boom"
    ∧ (screen_cv_job_trace (some (5, "boom")) fsA (OllamaOutcome.netError "x")
        "j" "c.pdf" "c.pdf").getLast?
      = some ⟨100, "Error", some (error_result "c.pdf" "boom")⟩ :=
  C4_unexpected_fault_terminal_error 5 "boom" fsA (OllamaOutcome.netError "x")
    "j" "c.pdf" "c.pdf" (by decide) (by decide)

/-- Claim C5: every failure mode of the model call — timeout, network
error, non-success HTTP status, non-JSON transport body, or a payload
`json.loads` rejects — makes the try-body raise, and `ollama_json_request`
converts the exception to the no-result value `none`; conversely a
`some` result is only ever a fully parsed payload, never a partial one. -/
theorem C5_model_client_failure_no_result :
    ∀ (p : String) (t : Nat) (m : String) (c : Nat) (raw : String),
      ollama_json_request OllamaOutcome.timeout p t = none
      ∧ ollama_json_request (OllamaOutcome.netError m) p t = none
      ∧ ollama_json_request (OllamaOutcome.httpErrorStatus c) p t = none
      ∧ ollama_json_request OllamaOutcome.bodyNotJson p t = none
      ∧ (json_loads (pyStrip raw) = none →
          ollama_json_request (OllamaOutcome.body raw) p t = none)
      ∧ (∀ (o : OllamaOutcome) (j : Json), ollama_json_request o p t = some j →
          ollama_request_body o p t = Except.ok j
          ∧ ∃ raw2, o = OllamaOutcome.body raw2 ∧ json_loads (pyStrip raw2) = some j) := by
  intro p t m c raw
  refine ⟨rfl, rfl, rfl, rfl, ?_, ?_⟩
  · intro h
    simp [ollama_json_request, ollama_request_body, h]
  · intro o j h
    cases o with
    | timeout => simp [ollama_json_request, ollama_request_body] at h
    | netError m2 => simp [ollama_json_request, ollama_request_body] at h
    | httpErrorStatus c2 => simp [ollama_json_request, ollama_request_body] at h
    | bodyNotJson => simp [ollama_json_request, ollama_request_body] at h
    | body raw2 =>
      rcases h2 : json_loads (pyStrip raw2) with _ | j2
      · simp [ollama_json_request, ollama_request_body, h2] at h
      · simp only [ollama_json_request, ollama_request_body, h2, Option.some.injEq] at h
        subst h
        refine ⟨by simp [ollama_request_body, h2], raw2, rfl, h2⟩

/-- Claim C5 (witness): a malformed payload yields the no-result value. -/
theorem C5_model_client_failure_no_result_witness :
    ollama_json_request (OllamaOutcome.body "not json") "p" 120 = none :=
  (C5_model_client_failure_no_result "p" 120 "connection refused" 500 "not json").2.2.2.2.1 rfl

/-- Claim C6: below the usage limit, submission returns exactly one job
id per document and one scheduled worker per document, and returns with
the store exactly as it received it — before any document's processing
has run; the result does not depend on any worker outcome, since no
model or extraction environment of the workers enters the computation. -/
theorem C6_submit_returns_one_id_per_document :
    ∀ (usage limit : Nat) (jt : String) (jf : Option CvUpload) (fs : FileEnv)
      (cvs : List CvUpload) (gen : IdGen) (store : Store), usage < limit →
      ∃ r : SubmitResult,
        screen_candidates usage limit jt jf fs cvs gen store = Except.ok r
        ∧ r.job_ids.length = cvs.length
        ∧ r.pending.length = cvs.length
        ∧ r.store = store := by
  intro usage limit jt jf fs cvs gen store h
  unfold screen_candidates
  rw [if_neg (by omega)]
  refine ⟨_, rfl, ?_, ?_, rfl⟩
  · simp [make_pending_length]
  · simp [make_pending_length]

/-- Claim C6 (witness): a concrete batch of two documents yields two job
ids and two scheduled workers, with the store untouched. -/
theorem C6_submit_returns_one_id_per_document_witness :
    ∃ r : SubmitResult,
      screen_candidates 0 3 "j" none fsA [⟨"a.pdf"⟩, ⟨"b.docx"⟩] genA [] = Except.ok r
      ∧ r.job_ids.length = 2
      ∧ r.pending.length = 2
      ∧ r.store = [] :=
  C6_submit_returns_one_id_per_document 0 3 "j" none fsA [⟨"a.pdf"⟩, ⟨"b.docx"⟩] genA []
    (by decide)

/-- Claim C7: along every worker trace — success, or a fault injected at
any point — the progress values are monotonically non-decreasing, and the
checkpoint stages of the messages (reading, then analyzing, then a
terminal message) are non-decreasing as well; the trace is the exact
order in which the store writes become visible, each before the next. -/
theorem C7_progress_monotone_ordered :
    ∀ (fault : Option (Nat × String)) (fs : FileEnv) (oll : OllamaOutcome)
      (jt cp fn : String),
      List.Chain' (· ≤ ·)
        ((screen_cv_job_trace fault fs oll jt cp fn).map JobRecord.progress)
      ∧ List.Chain' (· ≤ ·)
        ((screen_cv_job_trace fault fs oll jt cp fn).map
          (fun r => message_stage r.message)) := by
  intro fault fs oll jt cp fn
  rcases fault with _ | ⟨k, msg⟩
  · constructor <;>
      simp [screen_cv_job_trace, screen_cv_job_body, error_writes, message_stage,
        List.chain'_cons, List.chain'_singleton]
  · by_cases hk : (1 ≤ k ∧ k ≤ 9)
    · obtain ⟨h1, h2⟩ := hk
      interval_cases k <;> constructor <;>
        simp [screen_cv_job_trace, screen_cv_job_body, error_writes, message_stage,
          List.chain'_cons, List.chain'_singleton]
    · rw [trace_fault_other k msg fs oll jt cp fn (by omega)]
      constructor <;>
        simp [screen_cv_job_trace, screen_cv_job_body, error_writes, message_stage,
          List.chain'_cons, List.chain'_singleton]

/-- Claim C8 (counterexample): a plain-text document's content is never
extracted: the stored content is non-empty, yet `extract_text` returns
the empty string for it, so plain-text is not among the formats the code
actually extracts. -/
theorem C8_counterexample_plain_text_unsupported :
    fsTxt.raw "cv.txt" = "hello plain text resume"
    ∧ extract_text fsTxt "cv.txt" = ""
    ∧ extract_text fsTxt "cv.txt" ≠ fsTxt.raw "cv.txt" := by
  refine ⟨rfl, rfl, ?_⟩
  decide

/-- Claim C8 (amended): extraction never aborts the job, but the
supported formats are only `.pdf` and `.docx`: any other path — plain
text included — yields empty text with the file never read, and a
library exception on either supported format is caught and degrades to
empty text. -/
theorem C8_extraction_never_aborts :
    ∀ (fs : FileEnv) (path m1 m2 : String),
      ((strEndsWith path ".pdf" = false ∧ strEndsWith path ".docx" = false) →
          extract_text fs path = "")
      ∧ (strEndsWith path ".pdf" = true → fs.pdf path = PdfOutcome.raise m1 →
          extract_text fs path = "")
      ∧ (strEndsWith path ".pdf" = false → strEndsWith path ".docx" = true →
          fs.docx path = DocxOutcome.raise m2 → extract_text fs path = "") := by
  intro fs path m1 m2
  refine ⟨?_, ?_, ?_⟩
  · rintro ⟨h1, h2⟩
    simp [extract_text, h1, h2]
  · intro h1 h2
    simp [extract_text, extract_text_from_pdf, h1, h2]
  · intro h1 h2 h3
    simp [extract_text, extract_text_from_docx, h1, h2, h3]

/-- Claim C8 (witness): an unsupported extension degrades to empty text,
and a raising PDF library degrades to empty text. -/
theorem C8_extraction_never_aborts_witness :
    extract_text fsA "cv.txt" = "" ∧ extract_text fsRaise "bad.pdf" = "" :=
  ⟨(C8_extraction_never_aborts fsA "cv.txt" "m" "m").1 ⟨by decide, by decide⟩,
   (C8_extraction_never_aborts fsRaise "bad.pdf" "corrupt file" "x").2.1 (by decide) rfl⟩

/-- Claim C9: the prompt builder is a pure function of its two inputs
whose output embeds exactly the first 1200 characters of the job text and
the first 1200 characters of the CV text between fixed template pieces;
in particular it depends only on those prefixes (truncation is silent),
and equal arguments give equal prompts. -/
theorem C9_prompt_deterministic_and_truncating :
    ∀ (jt cv jt2 cv2 : String),
      build_evaluation_prompt jt cv
        = promptHead ++ pySlice jt 1200 ++ promptMid ++ pySlice cv 1200 ++ promptTail
      ∧ (pySlice jt 1200 = pySlice jt2 1200 → pySlice cv 1200 = pySlice cv2 1200 →
          build_evaluation_prompt jt cv = build_evaluation_prompt jt2 cv2) := by
  intro jt cv jt2 cv2
  refine ⟨rfl, fun h1 h2 => ?_⟩
  unfold build_evaluation_prompt
  rw [h1, h2]

set_option maxRecDepth 10000 in
/-- Two job texts of lengths 1300 and 1202 that agree on their first 1200
characters have equal 1200-character slices. -/
theorem pySlice_agrees_beyond_bound :
    pySlice (String.mk (List.replicate 1300 'a')) 1200
      = pySlice (String.mk (List.replicate 1200 'a' ++ ['b', 'c'])) 1200 := by
  unfold pySlice
  congr 1

/-- Claim C9 (witness): two job texts differing only beyond character
1200 produce the identical prompt — the truncation is applied and is
silent. -/
theorem C9_prompt_deterministic_and_truncating_witness :
    build_evaluation_prompt (String.mk (List.replicate 1300 'a')) "cv"
      = build_evaluation_prompt (String.mk (List.replicate 1200 'a' ++ ['b', 'c'])) "cv" :=
  (C9_prompt_deterministic_and_truncating (String.mk (List.replicate 1300 'a')) "cv"
      (String.mk (List.replicate 1200 'a' ++ ['b', 'c'])) "cv").2
    pySlice_agrees_beyond_bound rfl

/-- Claim C10: whenever the model's textual payload parses to a falsy
JSON value (the empty object, empty array, 0, the empty string, null,
or false), the worker's run is indistinguishable from one where the
transport failed outright: the whole write trace is identical, and the
terminal result is the fallback object with applicant_name equal to the
uploaded file's original filename, contact "N/A", score 0, explanation
"LLM failed", and an empty matched_skills list. -/
theorem C10_falsy_payload_like_transport_failure :
    ∀ (fs : FileEnv) (jt cp fn raw : String) (j : Json) (m : String),
      json_loads (pyStrip raw) = some j → j.truthy = false →
      screen_cv_job_trace none fs (OllamaOutcome.body raw) jt cp fn
        = screen_cv_job_trace none fs (OllamaOutcome.netError m) jt cp fn
      ∧ (screen_cv_job_trace none fs (OllamaOutcome.body raw) jt cp fn).getLast?
        = some ⟨100, "Completed", some (fallback_result fn)⟩
      ∧ fallback_result fn
        = Json.obj [("applicant_name", Json.str fn), ("contact", Json.str "N/A"),
            ("score", Json.num 0), ("explanation", Json.str "LLM failed"),
            ("matched_skills", Json.arr [])] := by
  intro fs jt cp fn raw j m h ht
  refine ⟨?_, ?_, rfl⟩
  · simp [screen_cv_job_trace, screen_cv_job_body, final_result,
      ollama_json_request, ollama_request_body, h, ht]
  · simp [screen_cv_job_trace, screen_cv_job_body, final_result,
      ollama_json_request, ollama_request_body, h, ht]

/-- Claim C10 (witness): an empty-object payload behaves exactly like a
network failure and stores the fallback result. -/
theorem C10_falsy_payload_like_transport_failure_witness :
    screen_cv_job_trace none fsA (OllamaOutcome.body "\x7b\x7d") "j" "c.pdf" "c.pdf"
      = screen_cv_job_trace none fsA (OllamaOutcome.netError "down") "j" "c.pdf" "c.pdf"
    ∧ (screen_cv_job_trace none fsA (OllamaOutcome.body "\x7b\x7d") "j" "c.pdf"
        "c.pdf").getLast?
      = some ⟨100, "Completed", some (fallback_result "c.pdf")⟩
    ∧ fallback_result "c.pdf"
      = Json.obj [("applicant_name", Json.str "c.pdf"), ("contact", Json.str "N/A"),
          ("score", Json.num 0), ("explanation", Json.str "LLM failed"),
          ("matched_skills", Json.arr [])] :=
  C10_falsy_payload_like_transport_failure fsA "j" "c.pdf" "c.pdf" "\x7b\x7d"
    (Json.obj []) "down" rfl rfl

end AIHR
